import Mathlib

/-!
Shallow embedding of the data-loading utilities of the VisualPropModel
repository (src/src/data/components/contact_point_dataset.py and
src/src/data/contactpoint_datamodule.py), together with theorems settling
the specification claims about them.

Numeric array entries are modelled as rationals; the numpy/torch dtype of
an array or tensor is tracked as an explicit label (value rounding done by
a dtype cast is not modelled, no claim depends on it).  Python and numpy
slicing, truncating conversion to int, and truthiness are modelled
explicitly below.
-/

namespace VisualPropModel

/-- Numeric dtypes of numpy arrays / torch tensors, tracked as labels. -/
inductive NpDType where
  | float16
  | float32
  | float64
  | int32
  | int64
deriving DecidableEq, Repr

/-- Normalization of a Python/numpy slice bound against a sequence of
length `len`: a negative bound has `len` added (then is clamped below at
0), a nonnegative bound is clamped above at `len`. -/
def pyBound (len : Nat) (i : Int) : Nat :=
  if i < 0 then (i + len).toNat else min i.toNat len

/-- Python slice `xs[a : b]` with possibly negative or out-of-range
bounds, as used by numpy basic slicing along one axis. -/
def pySlice (xs : List α) (a b : Int) : List α :=
  (xs.take (pyBound xs.length b)).drop (pyBound xs.length a)

/-- Python `int()` applied to a real number: truncation toward zero,
that is the ceiling for negative arguments and the floor otherwise. -/
def pyInt (q : ℚ) : Int :=
  if q < 0 then q.ceil else q.floor

/-- Python truthiness of an `Optional` collection field: `None` is falsy,
a collection is truthy exactly when it is nonempty. -/
def optTruthy : Option (List Nat) → Bool
  | none => false
  | some l => !l.isEmpty

/-- A 2-dimensional numpy array: a dtype label and a list of rows. -/
structure NpMatrix where
  dtype : NpDType
  rows : List (List ℚ)
deriving DecidableEq, Repr

/-- Model of `ndarray.astype(d)`: the dtype label changes (value rounding
is not modelled). -/
def NpMatrix.astype (a : NpMatrix) (d : NpDType) : NpMatrix :=
  ⟨d, a.rows⟩

/-- A 1-dimensional torch tensor: dtype label plus entries.
`torch.from_numpy` of a 1-D array keeps the dtype and the entries. -/
structure Tensor1D where
  dtype : NpDType
  data : List ℚ
deriving DecidableEq, Repr

/-- Model of `ContactPoint_Dataset`: the two member arrays produced by
`__init__`. -/
structure ContactPoint_Dataset where
  input : NpMatrix
  output : NpMatrix
deriving DecidableEq, Repr

/-- Model of `ContactPoint_Dataset.__init__` applied to the array read by
`np.load` (argument `raw`, of arbitrary dtype).  The source does
`data = np.load(data_path).astype('float32')`, then
`self.input = data[:, 0 : -3]` and
`self.output = data[:, -3 : len(data[:,])]`.  Note that `data[:,]` is the
whole array, so `len(data[:,])` is the ROW count of `data`, which the
source uses as the stop bound of the output column slice. -/
def ContactPoint_Dataset.init (raw : NpMatrix) : ContactPoint_Dataset :=
  let data := raw.astype NpDType.float32
  let n : Int := data.rows.length
  { input := ⟨data.dtype, data.rows.map (fun r => pySlice r 0 (-3))⟩,
    output := ⟨data.dtype, data.rows.map (fun r => pySlice r (-3) n)⟩ }

/-- Model of `ContactPoint_Dataset.__len__`: `len(self.input)`. -/
def ContactPoint_Dataset.len (ds : ContactPoint_Dataset) : Nat :=
  ds.input.rows.length

/-- Model of `ContactPoint_Dataset.__getitem__`: numpy integer indexing
of `self.input` and `self.output` accepts any integer in `[-N, N)`
(negative indices address from the end) and raises `IndexError` (modelled
as `none`) otherwise; `torch.from_numpy` wraps the selected row keeping
its dtype. -/
def ContactPoint_Dataset.getitem (ds : ContactPoint_Dataset) (idx : Int) :
    Option (Tensor1D × Tensor1D) :=
  let n : Int := ds.input.rows.length
  if -n ≤ idx ∧ idx < n then
    let i : Nat := (if idx < 0 then idx + n else idx).toNat
    some (⟨ds.input.dtype, ds.input.rows.getD i []⟩,
          ⟨ds.output.dtype, ds.output.rows.getD i []⟩)
  else
    none

example :
    ContactPoint_Dataset.init
        ⟨NpDType.float64,
         [[1, 2, 3, 4], [5, 6, 7, 8], [9, 10, 11, 12], [13, 14, 15, 16]]⟩ =
      { input := ⟨NpDType.float32, [[1], [5], [9], [13]]⟩,
        output := ⟨NpDType.float32, [[2, 3, 4], [6, 7, 8], [10, 11, 12], [14, 15, 16]]⟩ } := by
  decide

example :
    (ContactPoint_Dataset.init
        ⟨NpDType.float64,
         [[1, 2, 3, 4], [5, 6, 7, 8], [9, 10, 11, 12], [13, 14, 15, 16]]⟩).getitem 1 =
      some (⟨NpDType.float32, [5]⟩, ⟨NpDType.float32, [6, 7, 8]⟩) := by
  decide

example :
    ContactPoint_Dataset.init ⟨NpDType.float64, [[1, 2, 3, 4, 5], [6, 7, 8, 9, 10]]⟩ =
      { input := ⟨NpDType.float32, [[1, 2], [6, 7]]⟩,
        output := ⟨NpDType.float32, [[], []]⟩ } := by
  decide

/-- Model of `ContactPointDataModule` state.  The dataset is represented
by its length (the split works on index lists into it); `hparams` fields
`train_val_test_split_ratio`, `batch_size`, `num_workers` and
`pin_memory` are stored as set by `__init__`, together with the mutable
fields `batch_size_per_device`, `data_train`, `data_val`, `data_test`
(each subset is its list of dataset indices, `none` models `None`). -/
structure ContactPointDataModule where
  datasetLen : Nat
  ratioTrain : ℚ
  ratioVal : ℚ
  batch_size : Nat
  num_workers : Nat
  pin_memory : Bool
  batch_size_per_device : Nat
  data_train : Option (List Nat)
  data_val : Option (List Nat)
  data_test : Option (List Nat)
deriving DecidableEq, Repr

/-- Model of `ContactPointDataModule.__init__`: stores the hyperparameters,
sets the three subsets to `None` and `batch_size_per_device` to
`batch_size`. -/
def ContactPointDataModule.mkInit (datasetLen : Nat) (r1 r2 : ℚ)
    (batchSize numWorkers : Nat) (pinMemory : Bool) : ContactPointDataModule :=
  { datasetLen := datasetLen, ratioTrain := r1, ratioVal := r2,
    batch_size := batchSize, num_workers := numWorkers, pin_memory := pinMemory,
    batch_size_per_device := batchSize,
    data_train := none, data_val := none, data_test := none }

/-- Split lengths computed by `setup`:
`train_length = int(ratio[0] * len(dataset))`,
`val_length = int(ratio[1] * len(dataset))`,
`test_length = int(len(dataset) - train_length - val_length)`. -/
def splitLengths (r1 r2 : ℚ) (n : Nat) : Int × Int × Int :=
  (pyInt (r1 * n), pyInt (r2 * n),
   (n : Int) - pyInt (r1 * n) - pyInt (r2 * n))

/-- Model of `torch.utils.data.random_split(dataset, lengths, generator)`
at the call site in `setup`: `perm` is the index permutation drawn from
the generator (`randperm` over the dataset length); the call raises
`ValueError` when the integer lengths do not sum to the dataset length,
and otherwise returns the three `Subset` index lists obtained by Python
slicing of `perm` between the accumulated offsets. -/
def randomSplit3 (datasetLen : Nat) (perm : List Nat) (t v te : Int) :
    Except String (List Nat × List Nat × List Nat) :=
  if t + v + te ≠ (datasetLen : Int) then
    .error "Sum of input lengths does not equal the length of the input dataset!"
  else
    .ok (pySlice perm 0 t, pySlice perm t (t + v), pySlice perm (t + v) (t + v + te))

/-- Splitting part of `ContactPointDataModule.setup`: when all three of
`self.data_train`, `self.data_val`, `self.data_test` are falsy, compute
the split lengths and call `random_split` with the permutation drawn from
`torch.Generator().manual_seed(42)`; otherwise do nothing.  `randperm`
maps a seed and a length to the generated index permutation (the torch
generator is deterministic given the seed). -/
def setupSplit (randperm : Nat → Nat → List Nat) (m : ContactPointDataModule) :
    Except String ContactPointDataModule :=
  if !optTruthy m.data_train && !optTruthy m.data_val && !optTruthy m.data_test then
    let n := m.datasetLen
    let L := splitLengths m.ratioTrain m.ratioVal n
    match randomSplit3 n (randperm 42 n) L.1 L.2.1 L.2.2 with
    | .error e => .error e
    | .ok (a, b, c) =>
        .ok { m with data_train := some a, data_val := some b, data_test := some c }
  else
    .ok m

/-- Model of `ContactPointDataModule.setup`.  `worldSize` is
`self.trainer.world_size` when a trainer is attached (`none` models
`self.trainer is None`).  With a trainer, a batch size not divisible by
the device count raises `RuntimeError` (modelled as `.error`), otherwise
`batch_size_per_device` becomes the integer quotient; then the split part
runs. -/
def ContactPointDataModule.setup (m : ContactPointDataModule)
    (randperm : Nat → Nat → List Nat) (worldSize : Option Nat) :
    Except String ContactPointDataModule :=
  match worldSize with
  | some ws =>
      if m.batch_size % ws ≠ 0 then
        .error ("Batch size (" ++ toString m.batch_size ++
          ") is not divisible by the number of devices (" ++ toString ws ++ ").")
      else
        setupSplit randperm { m with batch_size_per_device := m.batch_size / ws }
  | none => setupSplit randperm m

/-- Batches yielded by a `DataLoader` with `drop_last=True` over a sample
sequence `xs`: batch `i` holds samples `i*b` to `i*b + b - 1`, and the
trailing partial batch is dropped, so exactly `len / b` full batches are
produced. -/
def batchChunks (b : Nat) (xs : List α) : List (List α) :=
  (List.range (xs.length / b)).map (fun i => (xs.drop (i * b)).take b)

/-- Model of `ContactPointDataModule.train_dataloader`
(`shuffle=True, drop_last=True`): each epoch the loader visits the train
subset in a freshly shuffled order; `epochOrder` is the shuffled subset
(a permutation of `data_train`) for the epoch under consideration. -/
def ContactPointDataModule.train_dataloader (m : ContactPointDataModule)
    (epochOrder : List Nat) : List (List Nat) :=
  batchChunks m.batch_size_per_device epochOrder

/-- Model of `ContactPointDataModule.val_dataloader`
(`shuffle=False, drop_last=True`): batches visit `data_val` in split
order. -/
def ContactPointDataModule.val_dataloader (m : ContactPointDataModule) :
    List (List Nat) :=
  batchChunks m.batch_size_per_device (m.data_val.getD [])

/-- Model of `ContactPointDataModule.test_dataloader`
(`shuffle=False, drop_last=True`): batches visit `data_test` in split
order. -/
def ContactPointDataModule.test_dataloader (m : ContactPointDataModule) :
    List (List Nat) :=
  batchChunks m.batch_size_per_device (m.data_test.getD [])

deriving instance DecidableEq for Except

example :
    (ContactPointDataModule.mkInit 10 (1/2) (1/5) 128 4 false).setup
        (fun _ k => List.range k) none =
      .ok { ContactPointDataModule.mkInit 10 (1/2) (1/5) 128 4 false with
            data_train := some [0, 1, 2, 3, 4],
            data_val := some [5, 6],
            data_test := some [7, 8, 9] } := by
  with_unfolding_all decide

example : batchChunks 2 [0, 1, 2, 3, 4] = [[0, 1], [2, 3]] := by decide

/-! Helper lemmas about the Python-semantics primitives. -/

theorem pyInt_eq_floor {q : ℚ} (h : 0 ≤ q) : pyInt q = ⌊q⌋ := by
  rw [pyInt, if_neg (not_lt.mpr h), Rat.floor_def', Rat.floor_def]

theorem pyInt_nonneg {q : ℚ} (h : 0 ≤ q) : 0 ≤ pyInt q := by
  rw [pyInt_eq_floor h]
  exact Int.floor_nonneg.mpr h

theorem pyBound_mono_of_nonneg (len : Nat) {a b : Int} (ha : 0 ≤ a) (h : a ≤ b) :
    pyBound len a ≤ pyBound len b := by
  unfold pyBound
  have h1 : ¬ a < 0 := by omega
  have h2 : ¬ b < 0 := by omega
  simp only [h1, h2, if_false]
  omega

theorem take_drop_take_append (xs : List α) {a b : Nat} (hab : a ≤ b) :
    xs.take a ++ (xs.take b).drop a = xs.take b := by
  conv_lhs =>
    rw [show xs.take a = (xs.take b).take a by
      rw [List.take_take, Nat.min_eq_left hab]]
  exact List.take_append_drop a (xs.take b)

/-- Slicing a permutation of `range n` at nonnegative offsets
`0 ≤ t ≤ t + v` and final stop `n` reassembles the permutation. -/
theorem slices_partition {perm : List Nat} {n : Nat} {t v : Int}
    (hperm : perm.Perm (List.range n)) (ht : 0 ≤ t) (hv : 0 ≤ v) :
    pySlice perm 0 t ++ pySlice perm t (t + v) ++ pySlice perm (t + v) (n : Int) = perm := by
  have hlen : perm.length = n := by simpa using hperm.length_eq
  have h0 : pyBound perm.length 0 = 0 := by simp [pyBound]
  have hn' : pyBound perm.length (n : Int) = perm.length := by
    simp [pyBound, hlen]
  unfold pySlice
  rw [h0, hn', List.drop_zero, List.take_length,
    take_drop_take_append perm (pyBound_mono_of_nonneg _ ht (by omega))]
  exact List.take_append_drop _ _

theorem take_add_split (xs : List α) (m n : Nat) :
    xs.take (m + n) = xs.take m ++ (xs.drop m).take n := by
  have h1 : (xs.take (m + n)).take m = xs.take m := by
    rw [List.take_take, Nat.min_eq_left (by omega)]
  calc xs.take (m + n)
      = (xs.take (m + n)).take m ++ (xs.take (m + n)).drop m :=
        (List.take_append_drop _ _).symm
    _ = xs.take m ++ (xs.drop m).take n := by rw [h1, ← List.take_drop]

/-! Helper lemmas about `DataLoader` batching. -/

theorem batchChunks_length (b : Nat) (xs : List α) :
    (batchChunks b xs).length = xs.length / b := by
  simp [batchChunks]

theorem batchChunks_mem_length {b : Nat} {xs l : List α}
    (h : l ∈ batchChunks b xs) : l.length = b := by
  unfold batchChunks at h
  obtain ⟨i, hi, hl⟩ := List.mem_map.mp h
  rw [List.mem_range] at hi
  have key : i * b + b ≤ xs.length := by
    calc i * b + b = (i + 1) * b := by ring
      _ ≤ (xs.length / b) * b := Nat.mul_le_mul_right _ hi
      _ ≤ xs.length := Nat.div_mul_le_self _ _
  have hb : b ≤ xs.length - i * b := Nat.le_sub_of_add_le (by omega)
  rw [← hl, List.length_take, List.length_drop, Nat.min_eq_left hb]

theorem batchChunks_join (b : Nat) (xs : List α) :
    (batchChunks b xs).flatten = xs.take (b * (xs.length / b)) := by
  suffices h : ∀ k, ((List.range k).map (fun i => (xs.drop (i * b)).take b)).flatten
      = xs.take (b * k) by
    simpa [batchChunks] using h (xs.length / b)
  intro k
  induction k with
  | zero => simp
  | succ k ih =>
      rw [List.range_succ, List.map_append, List.flatten_append, ih]
      simp only [List.map_cons, List.map_nil, List.flatten_cons, List.flatten_nil,
        List.append_nil]
      rw [show b * (k + 1) = b * k + b by ring, take_add_split,
        Nat.mul_comm b k]

/-! Helper lemmas about `setup`. -/

/-- Outcome of the seed-42 split on a dataset of length `n` with ratios
`r1`, `r2`: the three index lists that `setup` stores, as slices of the
drawn permutation at the accumulated split lengths. -/
def splitSlices (randperm : Nat → Nat → List Nat) (n : Nat) (r1 r2 : ℚ) :
    List Nat × List Nat × List Nat :=
  (pySlice (randperm 42 n) 0 (splitLengths r1 r2 n).1,
   pySlice (randperm 42 n) (splitLengths r1 r2 n).1
     ((splitLengths r1 r2 n).1 + (splitLengths r1 r2 n).2.1),
   pySlice (randperm 42 n) ((splitLengths r1 r2 n).1 + (splitLengths r1 r2 n).2.1) (n : Int))

theorem setupSplit_eq (randperm : Nat → Nat → List Nat) (m : ContactPointDataModule) :
    setupSplit randperm m = .ok (
      if optTruthy m.data_train || optTruthy m.data_val || optTruthy m.data_test then m
      else { m with
             data_train := some (splitSlices randperm m.datasetLen m.ratioTrain m.ratioVal).1,
             data_val := some (splitSlices randperm m.datasetLen m.ratioTrain m.ratioVal).2.1,
             data_test := some (splitSlices randperm m.datasetLen m.ratioTrain m.ratioVal).2.2 }) := by
  have key : ∀ a b : Int, a + b + ((m.datasetLen : Int) - a - b) = (m.datasetLen : Int) := by
    intro a b
    ring
  unfold setupSplit randomSplit3 splitSlices
  cases ha : optTruthy m.data_train <;> cases hb : optTruthy m.data_val <;>
    cases hc : optTruthy m.data_test <;>
      simp [ha, hb, hc, splitLengths, key]

theorem setup_none_eq (randperm : Nat → Nat → List Nat) (m : ContactPointDataModule) :
    m.setup randperm none = setupSplit randperm m := rfl

theorem setup_some_eq (randperm : Nat → Nat → List Nat) (ws : Nat)
    (m : ContactPointDataModule) :
    m.setup randperm (some ws) =
      if m.batch_size % ws ≠ 0 then
        .error ("Batch size (" ++ toString m.batch_size ++
          ") is not divisible by the number of devices (" ++ toString ws ++ ").")
      else
        setupSplit randperm { m with batch_size_per_device := m.batch_size / ws } := rfl

/-- Case analysis of a successful `setup` call: the dataset length and the
ratios are preserved, and the three subsets either were left alone (some
subset was already truthy) or were just computed as the seed-42 split
slices. -/
theorem setup_ok_cases (randperm : Nat → Nat → List Nat) (tr : Option Nat)
    (m m' : ContactPointDataModule) (h : m.setup randperm tr = .ok m') :
    (m'.datasetLen = m.datasetLen ∧ m'.ratioTrain = m.ratioTrain ∧ m'.ratioVal = m.ratioVal) ∧
    ((m'.data_train = m.data_train ∧ m'.data_val = m.data_val ∧ m'.data_test = m.data_test ∧
        (optTruthy m.data_train || optTruthy m.data_val || optTruthy m.data_test) = true) ∨
     ((optTruthy m.data_train || optTruthy m.data_val || optTruthy m.data_test) = false ∧
        m'.data_train = some (splitSlices randperm m.datasetLen m.ratioTrain m.ratioVal).1 ∧
        m'.data_val = some (splitSlices randperm m.datasetLen m.ratioTrain m.ratioVal).2.1 ∧
        m'.data_test = some (splitSlices randperm m.datasetLen m.ratioTrain m.ratioVal).2.2)) := by
  cases tr with
  | none =>
      rw [setup_none_eq, setupSplit_eq] at h
      cases hcond : (optTruthy m.data_train || optTruthy m.data_val || optTruthy m.data_test) <;>
        rw [hcond] at h <;> simp only [if_true, if_false, Except.ok.injEq] at h <;> subst h
      · simp [hcond]
      · simp [hcond]
  | some ws =>
      rw [setup_some_eq] at h
      by_cases hd : m.batch_size % ws ≠ 0
      · rw [if_pos hd] at h
        exact absurd h (by simp)
      · rw [if_neg hd, setupSplit_eq] at h
        cases hcond : (optTruthy m.data_train || optTruthy m.data_val || optTruthy m.data_test) <;>
          rw [show (optTruthy ({ m with batch_size_per_device := m.batch_size / ws } :
                ContactPointDataModule).data_train ||
              optTruthy ({ m with batch_size_per_device := m.batch_size / ws } :
                ContactPointDataModule).data_val ||
              optTruthy ({ m with batch_size_per_device := m.batch_size / ws } :
                ContactPointDataModule).data_test) =
              (optTruthy m.data_train || optTruthy m.data_val || optTruthy m.data_test) from rfl,
            hcond] at h <;>
          simp only [if_true, if_false, Except.ok.injEq] at h <;> subst h
        · simp [hcond]
        · simp [hcond]

/-- On a freshly initialized module (all three subsets `None`), `setup`
without a trainer always succeeds and stores the seed-42 split slices. -/
theorem setup_fresh_eq (randperm : Nat → Nat → List Nat) (n : Nat) (r1 r2 : ℚ)
    (bs nw : Nat) (pm : Bool) :
    (ContactPointDataModule.mkInit n r1 r2 bs nw pm).setup randperm none =
      .ok { ContactPointDataModule.mkInit n r1 r2 bs nw pm with
            data_train := some (splitSlices randperm n r1 r2).1,
            data_val := some (splitSlices randperm n r1 r2).2.1,
            data_test := some (splitSlices randperm n r1 r2).2.2 } := by
  rw [setup_none_eq, setupSplit_eq]
  rfl

/-! Claim theorems. -/

/-- C1: the claim states that for a source array of N rows and D columns,
`dataset[i]` is the pair of the first D-3 columns and the LAST 3 columns
of row `i`.  That is the documented intent (the data module docstring
says the output is the 3-dim contact location), but the code slices the
output columns as `data[:, -3 : len(data[:,])]`, whose stop bound
`len(data[:,])` is the ROW count N, so whenever N < D the output is
truncated.  Evaluation at the failing input, a 1-row 4-column array:
sample 0 has empty output although the last three columns of the row are
`[2, 3, 4]`. -/
theorem getitem_output_empty_when_rows_lt_cols :
    (ContactPoint_Dataset.init ⟨NpDType.float32, [[1, 2, 3, 4]]⟩).getitem 0 =
      some (⟨NpDType.float32, [1]⟩, ⟨NpDType.float32, []⟩) ∧
    pySlice [1, 2, 3, 4] (-3) 4 = ([2, 3, 4] : List ℚ) := by
  exact ⟨by decide, by decide⟩

/-- C6 (counterexample): the claim states `dataset[i]` fails for every
index outside `[0, N)`, but numpy indexing accepts negative indices: on a
2-row dataset, index -1 is outside `[0, 2)` yet succeeds. -/
theorem getitem_negative_index_succeeds :
    (-1 : Int) < 0 ∧
    ((ContactPoint_Dataset.init
        ⟨NpDType.float64, [[1, 2, 3, 4], [5, 6, 7, 8]]⟩).getitem (-1)).isSome = true := by
  exact ⟨by decide, by decide⟩

/-- C6 (amended): indexed access `dataset[idx]` succeeds exactly for
integer indices in `[-N, N)` (negative indices address from the end) and
fails with an out-of-range lookup error for every index outside that
range. -/
theorem getitem_succeeds_iff_index_in_range (raw : NpMatrix) (idx : Int) :
    ((ContactPoint_Dataset.init raw).getitem idx).isSome = true ↔
      (-((ContactPoint_Dataset.init raw).len : Int) ≤ idx ∧
        idx < ((ContactPoint_Dataset.init raw).len : Int)) := by
  simp only [ContactPoint_Dataset.getitem, ContactPoint_Dataset.len]
  split <;> simp_all

/-- C8: the claim states `len(dataset) = N`, input width `D-3` and output
width 3 for all rows.  Length and input width hold, but the output width
is 3 only when `N ≥ D` (see C1): the output column slice stops at the row
count.  Evaluation at the failing input, a 2-row 5-column array: length
is 2 and input widths are D-3 = 2 as claimed, but both output widths are
0 instead of 3. -/
theorem len_and_widths_at_two_by_five :
    (ContactPoint_Dataset.init
        ⟨NpDType.float64, [[0, 0, 0, 0, 0], [0, 0, 0, 0, 0]]⟩).len = 2 ∧
    (ContactPoint_Dataset.init
        ⟨NpDType.float64, [[0, 0, 0, 0, 0], [0, 0, 0, 0, 0]]⟩).input.rows.map
        List.length = [2, 2] ∧
    (ContactPoint_Dataset.init
        ⟨NpDType.float64, [[0, 0, 0, 0, 0], [0, 0, 0, 0, 0]]⟩).output.rows.map
        List.length = [0, 0] := by
  exact ⟨by decide, by decide, by decide⟩

/-- C10: the dataset casts the loaded array to 32-bit float at load time,
regardless of the source dtype, so both member arrays and every tensor
pair returned by `dataset[idx]` carry dtype float32. -/
theorem getitem_dtype_float32 (raw : NpMatrix) (idx : Int) (tin tout : Tensor1D)
    (h : (ContactPoint_Dataset.init raw).getitem idx = some (tin, tout)) :
    tin.dtype = NpDType.float32 ∧ tout.dtype = NpDType.float32 ∧
    (ContactPoint_Dataset.init raw).input.dtype = NpDType.float32 ∧
    (ContactPoint_Dataset.init raw).output.dtype = NpDType.float32 := by
  simp only [ContactPoint_Dataset.getitem] at h
  split at h
  · simp only [Option.some.injEq, Prod.mk.injEq] at h
    obtain ⟨h1, h2⟩ := h
    rw [← h1, ← h2]
    exact ⟨rfl, rfl, rfl, rfl⟩
  · exact absurd h (by simp)

/-- Witness for C10 at a concrete int64 source array. -/
theorem getitem_dtype_float32_witness :
    (ContactPoint_Dataset.init ⟨NpDType.int64, [[1, 2, 3, 4]]⟩).getitem 0 =
      some (⟨NpDType.float32, [1]⟩, ⟨NpDType.float32, []⟩) ∧
    ((⟨NpDType.float32, [1]⟩ : Tensor1D).dtype = NpDType.float32 ∧
     (⟨NpDType.float32, ([] : List ℚ)⟩ : Tensor1D).dtype = NpDType.float32 ∧
     (ContactPoint_Dataset.init ⟨NpDType.int64, [[1, 2, 3, 4]]⟩).input.dtype =
       NpDType.float32 ∧
     (ContactPoint_Dataset.init ⟨NpDType.int64, [[1, 2, 3, 4]]⟩).output.dtype =
       NpDType.float32) :=
  ⟨by decide, getitem_dtype_float32 _ 0 _ _ (by decide)⟩

/-- C2: for a dataset of N samples and nonnegative ratios, `setup`
computes split lengths `train = floor(r1 * N)`, `val = floor(r2 * N)`,
`test = N - train - val`, and stores three subsets that are pairwise
disjoint, exhaust the index range, and have sizes summing to N; the
example N = 100 with ratios (1/2, 1/5) gives lengths (50, 20, 30). -/
theorem setup_split_lengths_partition (randperm : Nat → Nat → List Nat)
    (n : Nat) (r1 r2 : ℚ) (bs nw : Nat) (pm : Bool)
    (h1 : 0 ≤ r1) (h2 : 0 ≤ r2)
    (hperm : (randperm 42 n).Perm (List.range n)) :
    ∃ m' a b c,
      (ContactPointDataModule.mkInit n r1 r2 bs nw pm).setup randperm none = .ok m' ∧
      m'.data_train = some a ∧ m'.data_val = some b ∧ m'.data_test = some c ∧
      splitLengths r1 r2 n =
        (⌊r1 * (n : ℚ)⌋, ⌊r2 * (n : ℚ)⌋,
         (n : Int) - ⌊r1 * (n : ℚ)⌋ - ⌊r2 * (n : ℚ)⌋) ∧
      a.length + b.length + c.length = n ∧
      a.Disjoint b ∧ a.Disjoint c ∧ b.Disjoint c ∧
      (∀ i, i < n → i ∈ a ∨ i ∈ b ∨ i ∈ c) ∧
      splitLengths (1/2) (1/5) 100 = (50, 20, 30) := by
  have hfl : splitLengths r1 r2 n =
      (⌊r1 * (n : ℚ)⌋, ⌊r2 * (n : ℚ)⌋,
       (n : Int) - ⌊r1 * (n : ℚ)⌋ - ⌊r2 * (n : ℚ)⌋) := by
    have e1 : pyInt (r1 * n) = ⌊r1 * (n : ℚ)⌋ :=
      pyInt_eq_floor (mul_nonneg h1 (Nat.cast_nonneg n))
    have e2 : pyInt (r2 * n) = ⌊r2 * (n : ℚ)⌋ :=
      pyInt_eq_floor (mul_nonneg h2 (Nat.cast_nonneg n))
    rw [splitLengths, e1, e2]
  have ht : 0 ≤ (splitLengths r1 r2 n).1 :=
    pyInt_nonneg (mul_nonneg h1 (Nat.cast_nonneg n))
  have hv : 0 ≤ (splitLengths r1 r2 n).2.1 :=
    pyInt_nonneg (mul_nonneg h2 (Nat.cast_nonneg n))
  have hpart : (splitSlices randperm n r1 r2).1 ++ (splitSlices randperm n r1 r2).2.1
      ++ (splitSlices randperm n r1 r2).2.2 = randperm 42 n :=
    slices_partition hperm ht hv
  refine ⟨_, _, _, _, setup_fresh_eq randperm n r1 r2 bs nw pm, rfl, rfl, rfl,
    hfl, ?_, ?_, ?_, ?_, ?_, by with_unfolding_all decide⟩
  · have := congrArg List.length hpart
    simp only [List.length_append] at this
    rw [hperm.length_eq, List.length_range] at this
    omega
  · have hnd : ((splitSlices randperm n r1 r2).1 ++ (splitSlices randperm n r1 r2).2.1
        ++ (splitSlices randperm n r1 r2).2.2).Nodup := by
      rw [hpart]
      exact hperm.nodup_iff.mpr (List.nodup_range n)
    exact List.disjoint_of_nodup_append (List.nodup_append.mp hnd).1
  · have hnd : ((splitSlices randperm n r1 r2).1 ++ (splitSlices randperm n r1 r2).2.1
        ++ (splitSlices randperm n r1 r2).2.2).Nodup := by
      rw [hpart]
      exact hperm.nodup_iff.mpr (List.nodup_range n)
    rw [List.append_assoc] at hnd
    exact fun x hx hx' =>
      (List.disjoint_of_nodup_append hnd) hx (List.mem_append_right _ hx')
  · have hnd : ((splitSlices randperm n r1 r2).1 ++ (splitSlices randperm n r1 r2).2.1
        ++ (splitSlices randperm n r1 r2).2.2).Nodup := by
      rw [hpart]
      exact hperm.nodup_iff.mpr (List.nodup_range n)
    rw [List.append_assoc] at hnd
    exact List.disjoint_of_nodup_append ((List.nodup_append.mp hnd).2.1)
  · intro i hi
    have hmem : i ∈ (splitSlices randperm n r1 r2).1 ++ (splitSlices randperm n r1 r2).2.1
        ++ (splitSlices randperm n r1 r2).2.2 := by
      rw [hpart, hperm.mem_iff]
      exact List.mem_range.mpr hi
    rcases List.mem_append.mp hmem with h' | h'
    · rcases List.mem_append.mp h' with h'' | h''
      · exact Or.inl h''
      · exact Or.inr (Or.inl h'')
    · exact Or.inr (Or.inr h')

/-- C3: two runs of `setup` on equal datasets with equal ratios produce
identical train/validation/test index assignments: the permutation is
drawn at the fixed seed 42, so any two generators that agree at seed 42
on the dataset length (in particular two runs of the same deterministic
torch generator) yield the same split, independently of the other
hyperparameters. -/
theorem setup_deterministic (rp1 rp2 : Nat → Nat → List Nat) (n : Nat)
    (r1 r2 : ℚ) (bs1 bs2 nw1 nw2 : Nat) (pm1 pm2 : Bool)
    (hrp : rp1 42 n = rp2 42 n) :
    ∃ m1 m2,
      (ContactPointDataModule.mkInit n r1 r2 bs1 nw1 pm1).setup rp1 none = .ok m1 ∧
      (ContactPointDataModule.mkInit n r1 r2 bs2 nw2 pm2).setup rp2 none = .ok m2 ∧
      m1.data_train = m2.data_train ∧ m1.data_val = m2.data_val ∧
      m1.data_test = m2.data_test := by
  have hsp : splitSlices rp1 n r1 r2 = splitSlices rp2 n r1 r2 := by
    unfold splitSlices
    rw [hrp]
  refine ⟨_, _, setup_fresh_eq rp1 n r1 r2 bs1 nw1 pm1,
    setup_fresh_eq rp2 n r1 r2 bs2 nw2 pm2, ?_, ?_, ?_⟩
  · show some (splitSlices rp1 n r1 r2).1 = some (splitSlices rp2 n r1 r2).1
    rw [hsp]
  · show some (splitSlices rp1 n r1 r2).2.1 = some (splitSlices rp2 n r1 r2).2.1
    rw [hsp]
  · show some (splitSlices rp1 n r1 r2).2.2 = some (splitSlices rp2 n r1 r2).2.2
    rw [hsp]

/-- C4: under multi-device coordination with a positive device count,
`setup` raises the descriptive configuration error and produces no state
(hence no loaders) when the batch size is not divisible by the device
count, and otherwise succeeds with the per-device batch size set to the
quotient. -/
theorem setup_batch_size_divisibility (randperm : Nat → Nat → List Nat)
    (m : ContactPointDataModule) (ws : Nat) (hws : 0 < ws) :
    (m.batch_size % ws ≠ 0 →
      m.setup randperm (some ws) =
        .error ("Batch size (" ++ toString m.batch_size ++
          ") is not divisible by the number of devices (" ++ toString ws ++ ").")) ∧
    (m.batch_size % ws = 0 →
      ∃ m', m.setup randperm (some ws) = .ok m' ∧
        m'.batch_size_per_device = m.batch_size / ws) := by
  constructor
  · intro hnd
    rw [setup_some_eq, if_pos hnd]
  · intro hd
    rw [setup_some_eq, if_neg (by simp [hd]), setupSplit_eq]
    refine ⟨_, rfl, ?_⟩
    split <;> rfl

/-- C5: once `setup` has populated the three subsets, a further call
leaves them unchanged: either some subset is nonempty and the split is
skipped, or all subsets are empty and the recomputed deterministic split
coincides with the stored one. -/
theorem setup_split_idempotent (randperm : Nat → Nat → List Nat)
    (tr1 tr2 : Option Nat) (m m1 m2 : ContactPointDataModule)
    (h1 : m.setup randperm tr1 = .ok m1) (h2 : m1.setup randperm tr2 = .ok m2) :
    m2.data_train = m1.data_train ∧ m2.data_val = m1.data_val ∧
      m2.data_test = m1.data_test := by
  obtain ⟨⟨hn1, hr11, hr12⟩, hcase1⟩ := setup_ok_cases randperm tr1 m m1 h1
  obtain ⟨_, hcase2⟩ := setup_ok_cases randperm tr2 m1 m2 h2
  rcases hcase2 with ⟨e1, e2, e3, _⟩ | ⟨hfalse2, e1, e2, e3⟩
  · exact ⟨e1, e2, e3⟩
  · rcases hcase1 with ⟨f1, f2, f3, htrue1⟩ | ⟨_, f1, f2, f3⟩
    · rw [f1, f2, f3, htrue1] at hfalse2
      simp at hfalse2
    · rw [hn1, hr11, hr12] at e1 e2 e3
      exact ⟨e1.trans f1.symm, e2.trans f2.symm, e3.trans f3.symm⟩

/-- C9: `setup` performs no validation of the split ratios: even for
ratio pairs summing to more than 1 it succeeds without raising any
configuration error, computing the test length as the remainder
`N - train - val`; at N = 10 with ratios (9/10, 9/10) this remainder is
the negative length -8. -/
theorem setup_no_ratio_validation (randperm : Nat → Nat → List Nat)
    (n : Nat) (r1 r2 : ℚ) (bs nw : Nat) (pm : Bool) (hsum : 1 < r1 + r2) :
    (∃ m', (ContactPointDataModule.mkInit n r1 r2 bs nw pm).setup randperm none
        = .ok m') ∧
    (splitLengths r1 r2 n).2.2 =
      (n : Int) - (splitLengths r1 r2 n).1 - (splitLengths r1 r2 n).2.1 ∧
    splitLengths (9/10) (9/10) 10 = (9, 9, -8) := by
  exact ⟨⟨_, setup_fresh_eq randperm n r1 r2 bs nw pm⟩, rfl,
    by with_unfolding_all decide⟩

/-- C7: with a positive per-device batch size b, each loader yields
exactly `floor(n / b)` batches of exactly b samples each, dropping the
trailing `n mod b` samples; the train loader visits a fresh shuffle of
its split each epoch (quantified here over an arbitrary permutation of
the train split), while the val/test loaders emit the consecutive chunks
of their splits in order; for n = 1000 and b = 64 a loader yields 15
batches and drops 40 samples. -/
theorem dataloaders_batching (m : ContactPointDataModule) (l sh lv lt : List Nat)
    (hb : 0 < m.batch_size_per_device)
    (htr : m.data_train = some l) (hsh : sh.Perm l)
    (hval : m.data_val = some lv) (htest : m.data_test = some lt) :
    (m.train_dataloader sh).length = l.length / m.batch_size_per_device ∧
    (∀ batch ∈ m.train_dataloader sh, batch.length = m.batch_size_per_device) ∧
    (m.train_dataloader sh).flatten.length =
      m.batch_size_per_device * (l.length / m.batch_size_per_device) ∧
    m.val_dataloader.length = lv.length / m.batch_size_per_device ∧
    (∀ batch ∈ m.val_dataloader, batch.length = m.batch_size_per_device) ∧
    m.val_dataloader.flatten =
      lv.take (m.batch_size_per_device * (lv.length / m.batch_size_per_device)) ∧
    m.test_dataloader.length = lt.length / m.batch_size_per_device ∧
    (∀ batch ∈ m.test_dataloader, batch.length = m.batch_size_per_device) ∧
    m.test_dataloader.flatten =
      lt.take (m.batch_size_per_device * (lt.length / m.batch_size_per_device)) ∧
    (batchChunks 64 (List.range 1000)).length = 15 ∧
    (List.range 1000).length - (batchChunks 64 (List.range 1000)).flatten.length = 40 := by
  have hshlen : sh.length = l.length := hsh.length_eq
  refine ⟨?_, ?_, ?_, ?_, ?_, ?_, ?_, ?_, ?_, ?_, ?_⟩
  · rw [ContactPointDataModule.train_dataloader, batchChunks_length, hshlen]
  · intro batch hmem
    exact batchChunks_mem_length hmem
  · rw [ContactPointDataModule.train_dataloader, batchChunks_join, List.length_take]
    have hle : m.batch_size_per_device * (sh.length / m.batch_size_per_device)
        ≤ sh.length := by
      rw [Nat.mul_comm]
      exact Nat.div_mul_le_self _ _
    rw [Nat.min_eq_left hle, hshlen]
  · rw [ContactPointDataModule.val_dataloader, hval, Option.getD_some, batchChunks_length]
  · intro batch hmem
    rw [ContactPointDataModule.val_dataloader, hval, Option.getD_some] at hmem
    exact batchChunks_mem_length hmem
  · rw [ContactPointDataModule.val_dataloader, hval, Option.getD_some, batchChunks_join]
  · rw [ContactPointDataModule.test_dataloader, htest, Option.getD_some, batchChunks_length]
  · intro batch hmem
    rw [ContactPointDataModule.test_dataloader, htest, Option.getD_some] at hmem
    exact batchChunks_mem_length hmem
  · rw [ContactPointDataModule.test_dataloader, htest, Option.getD_some, batchChunks_join]
  · rw [batchChunks_length, List.length_range]
  · rw [batchChunks_join, List.length_take, List.length_range]
    decide

/-! Concrete instantiations used by the witnesses. -/

/-- A concrete seed-to-permutation function for instantiating `randperm`:
it returns the identity permutation of the index range. -/
def idRandperm : Nat → Nat → List Nat := fun _ n => List.range n

/-- The module state produced by `setup` on a fresh module with dataset
length 10, ratios (1/2, 1/5) and the identity permutation. -/
def seedSplit10 : ContactPointDataModule :=
  { ContactPointDataModule.mkInit 10 (1/2) (1/5) 128 4 false with
    data_train := some [0, 1, 2, 3, 4],
    data_val := some [5, 6],
    data_test := some [7, 8, 9] }

/-- A small already-split module state for exercising the loaders. -/
def loaderModule5 : ContactPointDataModule :=
  { datasetLen := 5, ratioTrain := 0, ratioVal := 0,
    batch_size := 2, num_workers := 0, pin_memory := false,
    batch_size_per_device := 2,
    data_train := some [0, 1, 2], data_val := some [3], data_test := some [4] }

example : (ContactPointDataModule.mkInit 10 (1/2) (1/5) 128 4 false).setup
    idRandperm none = .ok seedSplit10 := by
  with_unfolding_all decide

/-- Witness for C2 at N = 100, ratios (1/2, 1/5), identity permutation. -/
theorem setup_split_lengths_partition_witness :
    (0 : ℚ) ≤ 1/2 ∧ (0 : ℚ) ≤ 1/5 ∧
    (idRandperm 42 100).Perm (List.range 100) ∧
    (∃ m' a b c,
      (ContactPointDataModule.mkInit 100 (1/2) (1/5) 128 4 false).setup
          idRandperm none = .ok m' ∧
      m'.data_train = some a ∧ m'.data_val = some b ∧ m'.data_test = some c ∧
      splitLengths (1/2) (1/5) 100 =
        (⌊(1/2 : ℚ) * ((100 : Nat) : ℚ)⌋, ⌊(1/5 : ℚ) * ((100 : Nat) : ℚ)⌋,
         ((100 : Nat) : Int) - ⌊(1/2 : ℚ) * ((100 : Nat) : ℚ)⌋ -
           ⌊(1/5 : ℚ) * ((100 : Nat) : ℚ)⌋) ∧
      a.length + b.length + c.length = 100 ∧
      a.Disjoint b ∧ a.Disjoint c ∧ b.Disjoint c ∧
      (∀ i, i < 100 → i ∈ a ∨ i ∈ b ∨ i ∈ c) ∧
      splitLengths (1/2) (1/5) 100 = (50, 20, 30)) :=
  ⟨by with_unfolding_all decide, by with_unfolding_all decide, List.Perm.refl _,
   setup_split_lengths_partition idRandperm 100 (1/2) (1/5) 128 4 false
     (by with_unfolding_all decide) (by with_unfolding_all decide)
     (List.Perm.refl _)⟩

/-- Witness for C3 at N = 10: two setups with different batch sizes,
worker counts and pin flags produce identical splits. -/
theorem setup_deterministic_witness :
    idRandperm 42 10 = idRandperm 42 10 ∧
    (∃ m1 m2,
      (ContactPointDataModule.mkInit 10 (1/2) (1/5) 128 4 false).setup
          idRandperm none = .ok m1 ∧
      (ContactPointDataModule.mkInit 10 (1/2) (1/5) 64 2 true).setup
          idRandperm none = .ok m2 ∧
      m1.data_train = m2.data_train ∧ m1.data_val = m2.data_val ∧
      m1.data_test = m2.data_test) :=
  ⟨rfl, setup_deterministic idRandperm idRandperm 10 (1/2) (1/5) 128 64 4 2
    false true rfl⟩

/-- Witness for C4 at batch size 100 and world size 3. -/
theorem setup_batch_size_divisibility_witness :
    0 < (3 : Nat) ∧
    (((ContactPointDataModule.mkInit 12 0 0 100 4 false).batch_size % 3 ≠ 0 →
      (ContactPointDataModule.mkInit 12 0 0 100 4 false).setup idRandperm (some 3) =
        .error ("Batch size (" ++
          toString (ContactPointDataModule.mkInit 12 0 0 100 4 false).batch_size ++
          ") is not divisible by the number of devices (" ++
          toString (3 : Nat) ++ ").")) ∧
     ((ContactPointDataModule.mkInit 12 0 0 100 4 false).batch_size % 3 = 0 →
      ∃ m', (ContactPointDataModule.mkInit 12 0 0 100 4 false).setup
          idRandperm (some 3) = .ok m' ∧
        m'.batch_size_per_device =
          (ContactPointDataModule.mkInit 12 0 0 100 4 false).batch_size / 3)) :=
  ⟨by decide, setup_batch_size_divisibility idRandperm
    (ContactPointDataModule.mkInit 12 0 0 100 4 false) 3 (by decide)⟩

/-- Witness for C5: re-running `setup` on the populated state leaves the
subsets unchanged. -/
theorem setup_split_idempotent_witness :
    (ContactPointDataModule.mkInit 10 (1/2) (1/5) 128 4 false).setup
        idRandperm none = .ok seedSplit10 ∧
    seedSplit10.setup idRandperm none = .ok seedSplit10 ∧
    (seedSplit10.data_train = seedSplit10.data_train ∧
     seedSplit10.data_val = seedSplit10.data_val ∧
     seedSplit10.data_test = seedSplit10.data_test) :=
  ⟨by with_unfolding_all decide, by with_unfolding_all decide,
   setup_split_idempotent idRandperm none none
     (ContactPointDataModule.mkInit 10 (1/2) (1/5) 128 4 false)
     seedSplit10 seedSplit10
     (by with_unfolding_all decide) (by with_unfolding_all decide)⟩

/-- Witness for C9 at N = 10 with ratios (9/10, 9/10), whose sum 9/5
exceeds 1. -/
theorem setup_no_ratio_validation_witness :
    (1 : ℚ) < 9/10 + 9/10 ∧
    ((∃ m', (ContactPointDataModule.mkInit 10 (9/10) (9/10) 128 4 false).setup
        idRandperm none = .ok m') ∧
     (splitLengths (9/10) (9/10) 10).2.2 =
       ((10 : Nat) : Int) - (splitLengths (9/10) (9/10) 10).1 -
         (splitLengths (9/10) (9/10) 10).2.1 ∧
     splitLengths (9/10) (9/10) 10 = (9, 9, -8)) :=
  ⟨by with_unfolding_all decide,
   setup_no_ratio_validation idRandperm 10 (9/10) (9/10) 128 4 false
     (by with_unfolding_all decide)⟩

/-- Witness for C7 on a 3/1/1 split with batch size 2 and the shuffled
epoch order [2, 0, 1] for the train loader. -/
theorem dataloaders_batching_witness :
    0 < loaderModule5.batch_size_per_device ∧
    loaderModule5.data_train = some [0, 1, 2] ∧
    ([2, 0, 1] : List Nat).Perm [0, 1, 2] ∧
    loaderModule5.data_val = some [3] ∧
    loaderModule5.data_test = some [4] ∧
    ((loaderModule5.train_dataloader [2, 0, 1]).length =
        ([0, 1, 2] : List Nat).length / loaderModule5.batch_size_per_device ∧
     (∀ batch ∈ loaderModule5.train_dataloader [2, 0, 1],
        batch.length = loaderModule5.batch_size_per_device) ∧
     (loaderModule5.train_dataloader [2, 0, 1]).flatten.length =
        loaderModule5.batch_size_per_device *
          (([0, 1, 2] : List Nat).length / loaderModule5.batch_size_per_device) ∧
     loaderModule5.val_dataloader.length =
        ([3] : List Nat).length / loaderModule5.batch_size_per_device ∧
     (∀ batch ∈ loaderModule5.val_dataloader,
        batch.length = loaderModule5.batch_size_per_device) ∧
     loaderModule5.val_dataloader.flatten =
        ([3] : List Nat).take (loaderModule5.batch_size_per_device *
          (([3] : List Nat).length / loaderModule5.batch_size_per_device)) ∧
     loaderModule5.test_dataloader.length =
        ([4] : List Nat).length / loaderModule5.batch_size_per_device ∧
     (∀ batch ∈ loaderModule5.test_dataloader,
        batch.length = loaderModule5.batch_size_per_device) ∧
     loaderModule5.test_dataloader.flatten =
        ([4] : List Nat).take (loaderModule5.batch_size_per_device *
          (([4] : List Nat).length / loaderModule5.batch_size_per_device)) ∧
     (batchChunks 64 (List.range 1000)).length = 15 ∧
     (List.range 1000).length - (batchChunks 64 (List.range 1000)).flatten.length
        = 40) :=
  ⟨by decide, rfl, by decide, rfl, rfl,
   dataloaders_batching loaderModule5 [0, 1, 2] [2, 0, 1] [3] [4]
     (by decide) rfl (by decide) rfl rfl⟩

end VisualPropModel
